import Mathlib

/-!
# Verification of the goss-up chat server's conversation manager

Shallow embedding of `src/controllers/chat.controller.js` (the Conversation
Manager) and proofs of the specified properties.

Modelling conventions:
* Mongo ObjectIds are abstracted to `Nat`; every abstract id is "valid", so the
  `isValidObjectId` / empty-string guards of the source (which concern the
  ObjectId wire format only) have no counterpart here.
* The user store is the list of existing user ids (the profile fields
  `name`/`profilePic`/`bio` play no role in any verified property).
* The chat store is a list of `Chat` records; `Chat.findById` is `List.find?`
  on the `id` field and `document.save()` replaces the record with the same id.
* JavaScript `Array.prototype.includes` is `List.contains`, and the
  `indexOf`/`splice(idx, 1)` pattern (remove the first occurrence) is
  `List.erase`.
* Each HTTP handler becomes a pure function from the stores and the request
  data to a response together with the resulting chat store.
-/

/-- Modelled from the spec: the status-code constants of `utils/constants.js`
(file not in the sources; §6 lists the status classes OK, Created, BadRequest,
Unauthorized, NotFound, InternalError, which the controller imports as the
standard HTTP numerals). -/
def OK : Nat := 200

/-- Modelled from the spec: HTTP 201 Created. -/
def CREATED : Nat := 201

/-- Modelled from the spec: HTTP 400 Bad Request. -/
def BAD_REQUEST : Nat := 400

/-- Modelled from the spec: HTTP 401 Unauthorized. -/
def UNAUTHORIZED : Nat := 401

/-- Modelled from the spec: HTTP 404 Not Found. -/
def NOT_FOUND : Nat := 404

/-- Modelled from the spec: HTTP 500 Internal Server Error. -/
def INTERNAL_SERVER_ERROR : Nat := 500

/-- The two chat types of the data model (`chatType` field). -/
inductive ChatType where
  | oneToOne
  | group
deriving DecidableEq, Repr

/-- A conversation record (the `Chat` mongoose document). `lastMessageId`
and `groupIcon` are omitted: no verified property touches them. -/
structure Chat where
  id : Nat
  chatType : ChatType
  participants : List Nat
  admins : List Nat
  groupName : String
  updatedAt : Nat
deriving DecidableEq, Repr

/-- A friendship record: canonical ordered pair of user ids plus status. -/
structure Friendship where
  userOneId : Nat
  userTwoId : Nat
  status : String
deriving DecidableEq, Repr

/-- Responses: `ok` carries the status, message and (for the creation
endpoints) the chat payload; `err` is a `next(new ApiError(status, msg))`. -/
inductive Resp where
  | ok (status : Nat) (msg : String) (chatData : Option Chat)
  | err (status : Nat) (msg : String)
deriving DecidableEq, Repr

/-- Whether a response is a success (the handler reached a `res.json`). -/
def Resp.isOk : Resp → Bool
  | .ok _ _ _ => true
  | .err _ _ => false

/-- The `name.trim() === ""` guards: a string trims to empty exactly when
every character is whitespace; `String.trim` itself is not kernel-reducible,
so the equivalent all-whitespace test embeds the check. -/
def isBlank (s : String) : Bool :=
  s.data.all (fun c => c.isWhitespace)

/-- Modelled from the spec: `sortUserIds` of `utils/utility.js` (file not in
the sources) returns the canonical pair, smaller id first (§3, Glossary
"Canonical pair ordering"). -/
def sortUserIds (a b : Nat) : Nat × Nat :=
  if a < b then (a, b) else (b, a)

/-- `Chat.findById(groupId)` over the chat store. -/
def findById (chats : List Chat) (groupId : Nat) : Option Chat :=
  chats.find? (fun c => c.id == groupId)

/-- `document.save()`: replace the record carrying the same id. -/
def saveChat (c : Chat) (chats : List Chat) : List Chat :=
  chats.map (fun x => if x.id == c.id then c else x)

/-- The `$match` stage of `createOneToOneChat`'s aggregation: chats whose
`chatType` is one-to-one and whose `participants` array equals the sorted
pair `[s, t]` exactly (Mongo equality on a whole array field). -/
def findOneToOneByPair (chats : List Chat) (s t : Nat) : List Chat :=
  chats.filter (fun c =>
    decide (c.chatType = ChatType.oneToOne) && c.participants == [s, t])

/-- The chat record built by `Chat.create({participants: [smaller, bigger]})`.
`chatType` defaults to one-to-one and `admins` to empty — modelled from the
spec (`models/chat.model.js` is not in the sources; §3: one-to-one chats carry
exactly the two-element sorted participant array, admins are meaningful only
for group type). -/
def newOneToOneChat (newId s t : Nat) : Chat :=
  { id := newId, chatType := ChatType.oneToOne, participants := [s, t],
    admins := [], groupName := "", updatedAt := 0 }

/-- `createOneToOneChat` (chat.controller.js lines 23-103): look the target
user up, compute the canonical pair, return an existing chat when the exact
pair already has a one-to-one chat, otherwise require an accepted friendship
and create the chat. -/
def createOneToOneChat (users : List Nat) (friendships : List Friendship)
    (chats : List Chat) (requesterId userId newId : Nat) : Resp × List Chat :=
  if users.contains userId = false then
    (.err NOT_FOUND "User not found", chats)
  else
    let p := sortUserIds requesterId userId
    match findOneToOneByPair chats p.1 p.2 with
    | chatData :: _ => (.ok OK "Chat already exists" (some chatData), chats)
    | [] =>
      match friendships.find? (fun f =>
          f.userOneId == p.1 && f.userTwoId == p.2 && f.status == "accepted") with
      | none => (.err BAD_REQUEST "You can only chat with friends", chats)
      | some _ =>
        (.ok CREATED "Chat created" (some (newOneToOneChat newId p.1 p.2)),
         chats ++ [newOneToOneChat newId p.1 p.2])

/-- The canonical friendship pair built in `createGroupChat` (lines 128-132):
participant id and requester id, smaller first. -/
def canonicalPair (p loggedInUserId : Nat) : Nat × Nat :=
  if p < loggedInUserId then (p, loggedInUserId) else (loggedInUserId, p)

/-- `createGroupChat` (lines 105-168): require a non-empty name and at least
two named participants, all resolving to existing users (count check), all
with an accepted friendship with the requester (count check over the `$or`
query); on success create the group with the requester appended and as the
sole admin. -/
def createGroupChat (users : List Nat) (friendships : List Friendship)
    (chats : List Chat) (loggedInUserId : Nat) (participants : List Nat)
    (groupName : String) (newId : Nat) : Resp × List Chat :=
  if isBlank groupName then
    (.err BAD_REQUEST "Group name is required", chats)
  else if participants.length < 2 then
    (.err BAD_REQUEST "participants is required and should be more than 1", chats)
  else if (users.filter (fun u => participants.contains u)).length ≠ participants.length then
    (.err BAD_REQUEST "Some user do not exists", chats)
  else
    let friendShipPairs := participants.map (fun p => canonicalPair p loggedInUserId)
    if (friendships.filter (fun f =>
          friendShipPairs.contains (f.userOneId, f.userTwoId)
            && f.status == "accepted")).length ≠ participants.length then
      (.err BAD_REQUEST "You can only add friends to the group", chats)
    else
      let groupChat : Chat :=
        { id := newId, chatType := ChatType.group,
          participants := participants ++ [loggedInUserId],
          admins := [loggedInUserId], groupName := groupName, updatedAt := 0 }
      (.ok CREATED "Group chat created" (some groupChat), chats ++ [groupChat])

/-- `updateGroupName` (lines 170-191): non-empty name, chat must exist and be
a group, actor must be an admin; then rename and save. -/
def updateGroupName (chats : List Chat) (actorId groupId : Nat)
    (groupName : String) : Resp × List Chat :=
  if isBlank groupName then
    (.err BAD_REQUEST "Group name is required", chats)
  else
    match findById chats groupId with
    | none => (.err NOT_FOUND "Group chat not found", chats)
    | some groupChat =>
      if decide (groupChat.chatType ≠ ChatType.group) then
        (.err NOT_FOUND "Group chat not found", chats)
      else if groupChat.admins.contains actorId = false then
        (.err UNAUTHORIZED "Only admins can change group name", chats)
      else
        (.ok OK "Group name updated" none,
         saveChat { groupChat with groupName := groupName } chats)

/-- Outcome of `utilityForGroupAction`: either an error payload or the loaded
group chat. -/
inductive UtilOut where
  | fail (status : Nat) (msg : String)
  | pass (groupChat : Chat)
deriving DecidableEq, Repr

/-- `utilityForGroupAction` (lines 193-232): load the chat, require group
type and that the logged-in user is an admin. -/
def utilityForGroupAction (chats : List Chat) (groupId loggedInUserId : Nat) :
    UtilOut :=
  match findById chats groupId with
  | none => .fail NOT_FOUND "Group chat not found"
  | some groupChat =>
    if decide (groupChat.chatType ≠ ChatType.group) then
      .fail NOT_FOUND "Group chat not found"
    else if groupChat.admins.contains loggedInUserId = false then
      .fail UNAUTHORIZED "Only admins can perform this action"
    else .pass groupChat

/-- `addParticipant` (lines 234-261): admin-only; reject an existing member;
require an accepted friendship between actor and invitee; append. -/
def addParticipant (friendships : List Friendship) (chats : List Chat)
    (loggedInUserId groupId participantId : Nat) : Resp × List Chat :=
  match utilityForGroupAction chats groupId loggedInUserId with
  | .fail s m => (.err s m, chats)
  | .pass groupChat =>
    if groupChat.participants.contains participantId then
      (.err BAD_REQUEST "This user is already in the group", chats)
    else
      let p := sortUserIds loggedInUserId participantId
      match friendships.find? (fun f =>
          f.userOneId == p.1 && f.userTwoId == p.2 && f.status == "accepted") with
      | none =>
        (.err BAD_REQUEST "You can only add your friends to the group", chats)
      | some _ =>
        (.ok OK "User added to group" none,
         saveChat { groupChat with
            participants := groupChat.participants ++ [participantId] } chats)

/-- `removeParticipant` (lines 263-292): admin-only; self-removal rejected
(use leaveGroup); target must be a member; remove the target from the
participants and, when present, from the admins; no replacement admin is
installed. -/
def removeParticipant (chats : List Chat)
    (loggedInUserId groupId participantId : Nat) : Resp × List Chat :=
  match utilityForGroupAction chats groupId loggedInUserId with
  | .fail s m => (.err s m, chats)
  | .pass groupChat =>
    if loggedInUserId == participantId then
      (.err BAD_REQUEST "You cant remove yourself, try leaving the group", chats)
    else if groupChat.participants.contains participantId = false then
      (.err BAD_REQUEST "This user is not in the group", chats)
    else
      (.ok OK "User removed from group" none,
       saveChat { groupChat with
          participants := groupChat.participants.erase participantId,
          admins := groupChat.admins.erase participantId } chats)

/-- `toggleAdmin` (lines 294-317): admin-only; target must be a member; add
the target to the admins when absent, remove them when present. There is no
guard against demoting the last admin (or oneself). -/
def toggleAdmin (chats : List Chat)
    (loggedInUserId groupId participantId : Nat) : Resp × List Chat :=
  match utilityForGroupAction chats groupId loggedInUserId with
  | .fail s m => (.err s m, chats)
  | .pass groupChat =>
    if groupChat.participants.contains participantId = false then
      (.err BAD_REQUEST "This user is not in the group", chats)
    else if groupChat.admins.contains participantId = false then
      (.ok OK "User marked as admin" none,
       saveChat { groupChat with
          admins := groupChat.admins ++ [participantId] } chats)
    else
      (.ok OK "Admin removed" none,
       saveChat { groupChat with
          admins := groupChat.admins.erase participantId } chats)

/-- `leaveGroup` (lines 319-346): the actor leaves; when the participant list
empties the handler returns success **before any save** (the cascade delete
is only a comment in the source), otherwise the actor is dropped from the
admins and, when that empties the admin set, the participant at index 0 of
the remaining list is promoted. -/
def leaveGroup (chats : List Chat) (loggedInUserId groupId : Nat) :
    Resp × List Chat :=
  match findById chats groupId with
  | none => (.err NOT_FOUND "Group chat not found", chats)
  | some groupChat =>
    if decide (groupChat.chatType ≠ ChatType.group) then
      (.err NOT_FOUND "Group chat not found", chats)
    else if groupChat.participants.contains loggedInUserId = false then
      (.err BAD_REQUEST "You are not in the group", chats)
    else
      let ps := groupChat.participants.erase loggedInUserId
      if ps.isEmpty then
        (.ok OK "You left the group" none, chats)
      else
        let wasAdmin := groupChat.admins.contains loggedInUserId
        let as1 := if wasAdmin then groupChat.admins.erase loggedInUserId
                   else groupChat.admins
        let as2 := if wasAdmin && as1.isEmpty then as1 ++ [ps.headD 0] else as1
        (.ok OK "You left the group" none,
         saveChat { groupChat with participants := ps, admins := as2 } chats)

/-- The page argument as received by the paginated handlers: a JavaScript
number or a non-numeric value (`isNaN`). -/
inductive PageInput where
  | num (k : Int)
  | nonNumeric
deriving DecidableEq, Repr

/-- `page = isNaN(page) ? 1 : Number(page); if (page < 1) page = 1` — the
effective 1-indexed page. -/
def parsePage : PageInput → Nat
  | .num k => if k < 1 then 1 else k.toNat
  | .nonNumeric => 1

/-- The payload assembled by both paginated handlers: the `$facet` data page,
the `$count` total and the derived `hasMore` flag. -/
structure PageResult where
  data : List Chat
  total : Nat
  hasMore : Bool
deriving DecidableEq, Repr

/-- Case-insensitive match of one pattern character for the modelled PCRE
fragment: `.` is the wildcard, any other character compares
case-insensitively (`$options: "i"`). Only `.` receives its metacharacter
meaning here; see `pcreMetachars` for the domain restriction. -/
def charMatches (p x : Char) : Bool :=
  p == '.' || p.toLower == x.toLower

/-- The pattern matches a prefix of the text. Together with `regexSearch`
this models the semantics of Mongo's `$regex` (PCRE, unanchored search) for
the fragment of patterns made of literal characters and the `.` wildcard. -/
def matchHere : List Char → List Char → Bool
  | [], _ => true
  | _ :: _, [] => false
  | p :: ps, x :: xs => charMatches p x && matchHere ps xs

/-- Unanchored regex search: the pattern matches at some position of the
text. This embeds `$regex` faithfully only for patterns inside the
literal-plus-`.` fragment: a pattern containing any other PCRE
metacharacter (`*`, `+`, `?`, brackets, anchors, ...) means something else
to PCRE than to this function, so every theorem below evaluates
`regexSearch` only on fragment patterns — concrete ones such as "a.c" and
"ab", and, in the refinement theorem, patterns hypothesised free of all
PCRE metacharacters, where matching is genuinely literal. -/
def regexSearch (p : List Char) : List Char → Bool
  | [] => matchHere p []
  | x :: xs => matchHere p (x :: xs) || regexSearch p xs

/-- The PCRE metacharacters of a Mongo `$regex` pattern. A query containing
none of these is matched by PCRE as a literal (case-insensitive, under
`$options: "i"`) unanchored substring search, which is exactly what
`regexSearch` computes on such queries. -/
def pcreMetachars : List Char :=
  ['.', '*', '+', '?', '[', ']', '(', ')', '^', '$', '\\', '|', '\x7b', '\x7d']

/-- The page slice and pagination fields computed by `searchGroupChat`'s
`$facet` stage over the `$match`-filtered groups (lines 385-417). -/
def searchGroupChatPaged (chats : List Chat) (actor : Nat) (search : String)
    (page : Nat) : PageResult :=
  let matched := chats.filter (fun c =>
    decide (c.chatType = ChatType.group) && c.participants.contains actor
      && regexSearch search.data c.groupName.data)
  { data := (matched.drop ((page - 1) * 50)).take 50,
    total := matched.length,
    hasMore := decide (page * 50 < matched.length) }

/-- `searchGroupChat` (lines 377-425): reject an empty search, then page
through the groups the actor belongs to whose name matches the search string
used as a case-insensitive regex. -/
def searchGroupChat (chats : List Chat) (actor : Nat) (search : String)
    (pageIn : PageInput) : Except (Nat × String) PageResult :=
  if isBlank search then
    .error (BAD_REQUEST, "Please provide a search query")
  else
    .ok (searchGroupChatPaged chats actor search (parsePage pageIn))

/-- Insert a chat into a list sorted by `updatedAt` descending. -/
def insertDesc (c : Chat) : List Chat → List Chat
  | [] => [c]
  | x :: xs => if x.updatedAt ≤ c.updatedAt then c :: x :: xs
               else x :: insertDesc c xs

/-- `$sort: { updatedAt: -1 }` — most recently active first. -/
def sortDesc : List Chat → List Chat
  | [] => []
  | x :: xs => insertDesc x (sortDesc xs)

/-- The page slice and pagination fields of `getAllChats` (lines 432-469):
all chats the actor belongs to, recency-sorted, then `$facet` paging. -/
def getAllChatsPaged (chats : List Chat) (actor : Nat) (page : Nat) :
    PageResult :=
  let matched := sortDesc (chats.filter (fun c => c.participants.contains actor))
  { data := (matched.drop ((page - 1) * 50)).take 50,
    total := matched.length,
    hasMore := decide (page * 50 < matched.length) }

/-- `getAllChats` (lines 427-493), restricted to the chat-store part (the
last-message lookup and the participant-profile join read other stores). -/
def getAllChats (chats : List Chat) (actor : Nat) (pageIn : PageInput) :
    PageResult :=
  getAllChatsPaged chats actor (parsePage pageIn)

/-- Spec-side definition (for the refinement comparison of the search
filter): literal case-sensitive prefix match of a lowered pattern. -/
def litHere : List Char → List Char → Bool
  | [], _ => true
  | _ :: _, [] => false
  | p :: ps, x :: xs => p == x && litHere ps xs

/-- Spec-side definition: the pattern occurs literally at some position. -/
def litSearch (p : List Char) : List Char → Bool
  | [] => litHere p []
  | x :: xs => litHere p (x :: xs) || litSearch p xs

/-- Spec-side definition, following the spec's words "case-insensitive
substring match on `groupName`": the query is a substring of the name after
lowering both. -/
def ciContains (q s : String) : Bool :=
  litSearch (q.data.map Char.toLower) (s.data.map Char.toLower)

/-- Spec-side counterpart of `searchGroupChatPaged` with the filter the spec
describes (case-insensitive substring) in place of the regex the code runs. -/
def specSearchGroupsPaged (chats : List Chat) (actor : Nat) (search : String)
    (page : Nat) : PageResult :=
  let matched := chats.filter (fun c =>
    decide (c.chatType = ChatType.group) && c.participants.contains actor
      && ciContains search c.groupName)
  { data := (matched.drop ((page - 1) * 50)).take 50,
    total := matched.length,
    hasMore := decide (page * 50 < matched.length) }

/-- Spec-side counterpart of `searchGroupChat`. -/
def specSearchGroups (chats : List Chat) (actor : Nat) (search : String)
    (pageIn : PageInput) : Except (Nat × String) PageResult :=
  if isBlank search then
    .error (BAD_REQUEST, "Please provide a search query")
  else
    .ok (specSearchGroupsPaged chats actor search (parsePage pageIn))

/-- One successful `addParticipant` call on a single-chat store (the actor
and invitee, and the friendship store it consulted, are existentially
quantified; success means the handler reached its `res.json`). -/
def addStep (c c' : Chat) : Prop :=
  ∃ fs actor target,
    (addParticipant fs [c] actor c.id target).1.isOk = true
    ∧ (addParticipant fs [c] actor c.id target).2 = [c']

/-- One successful `removeParticipant` call on a single-chat store. -/
def removeStep (c c' : Chat) : Prop :=
  ∃ actor target,
    (removeParticipant [c] actor c.id target).1.isOk = true
    ∧ (removeParticipant [c] actor c.id target).2 = [c']

/-- One successful `toggleAdmin` call on a single-chat store. -/
def toggleStep (c c' : Chat) : Prop :=
  ∃ actor target,
    (toggleAdmin [c] actor c.id target).1.isOk = true
    ∧ (toggleAdmin [c] actor c.id target).2 = [c']

/-- One successful `toggleAdmin` call that does not demote the last
remaining admin. -/
def toggleStepSafe (c c' : Chat) : Prop :=
  ∃ actor target,
    (toggleAdmin [c] actor c.id target).1.isOk = true
    ∧ (toggleAdmin [c] actor c.id target).2 = [c']
    ∧ ¬(target ∈ c.admins ∧ c.admins.erase target = [])

/-- One successful `leaveGroup` call on a single-chat store. -/
def leaveStep (c c' : Chat) : Prop :=
  ∃ actor,
    (leaveGroup [c] actor c.id).1.isOk = true
    ∧ (leaveGroup [c] actor c.id).2 = [c']

/-- One membership/admin mutation drawn from the full operation set of the
claim: addParticipant, removeParticipant, toggleAdmin or leaveGroup. -/
def chatStepFull (c c' : Chat) : Prop :=
  addStep c c' ∨ removeStep c c' ∨ toggleStep c c' ∨ leaveStep c c'

/-- Same, but toggleAdmin restricted to calls that do not demote the last
remaining admin. -/
def chatStepSafe (c c' : Chat) : Prop :=
  addStep c c' ∨ removeStep c c' ∨ toggleStepSafe c c' ∨ leaveStep c c'

/-- Fixture: a two-member group whose sole admin is user 1. -/
def c1chat0 : Chat :=
  { id := 1, chatType := ChatType.group, participants := [1, 2],
    admins := [1], groupName := "g", updatedAt := 0 }

/-- Fixture: the same group after its sole admin toggled themself off. -/
def c1chat1 : Chat :=
  { id := 1, chatType := ChatType.group, participants := [1, 2],
    admins := [], groupName := "g", updatedAt := 0 }

/-- Fixture: a group named "abc" whose member is user 7. -/
def c8chat : Chat :=
  { id := 1, chatType := ChatType.group, participants := [7], admins := [7],
    groupName := "abc", updatedAt := 0 }

/-- Fixture: friendship store for the group-creation witness — requester 10
is friends with 1 and with 2, but 1 and 2 are not friends with each other. -/
def c9friends : List Friendship :=
  [{ userOneId := 1, userTwoId := 10, status := "accepted" },
   { userOneId := 2, userTwoId := 10, status := "accepted" }]

/-- Fixture: the group record created by the group-creation witness. -/
def c9group : Chat :=
  { id := 7, chatType := ChatType.group, participants := [1, 2, 10],
    admins := [10], groupName := "Team", updatedAt := 0 }

/-- Fixture: a group whose only member, user 4, is not an admin. -/
def c6chat : Chat :=
  { id := 9, chatType := ChatType.group, participants := [4], admins := [],
    groupName := "old", updatedAt := 0 }

/-- Fixture: the "Team" group of the leave-promotion scenario —
participants A=1, B=2, C=3, admins [1]. -/
def c3chat : Chat :=
  { id := 5, chatType := ChatType.group, participants := [1, 2, 3],
    admins := [1], groupName := "Team", updatedAt := 0 }

theorem contains_eq_true_iff {α : Type} [BEq α] [LawfulBEq α] {l : List α}
    {a : α} : l.contains a = true ↔ a ∈ l := by
  simp [List.elem_iff]

theorem contains_eq_false_iff {α : Type} [BEq α] [LawfulBEq α] {l : List α}
    {a : α} : l.contains a = false ↔ a ∉ l := by
  rw [← Bool.not_eq_true]
  exact not_congr contains_eq_true_iff

theorem findById_singleton (c : Chat) : findById [c] c.id = some c := by
  simp [findById]

theorem saveChat_singleton {c c' : Chat} (h : c'.id = c.id) :
    saveChat c' [c] = [c'] := by
  simp [saveChat, h]

theorem utility_pass {chats : List Chat} {groupId actor : Nat} {c : Chat}
    (hfind : findById chats groupId = some c)
    (htype : c.chatType = ChatType.group)
    (hadm : actor ∈ c.admins) :
    utilityForGroupAction chats groupId actor = .pass c := by
  unfold utilityForGroupAction
  rw [hfind]
  simp [htype, hadm]

theorem utility_fail_admin {chats : List Chat} {groupId actor : Nat} {c : Chat}
    (hfind : findById chats groupId = some c)
    (htype : c.chatType = ChatType.group)
    (hadm : actor ∉ c.admins) :
    utilityForGroupAction chats groupId actor
      = .fail UNAUTHORIZED "Only admins can perform this action" := by
  unfold utilityForGroupAction
  rw [hfind]
  simp [htype, hadm]

theorem utility_fail_type {chats : List Chat} {groupId actor : Nat} {c : Chat}
    (hfind : findById chats groupId = some c)
    (htype : c.chatType ≠ ChatType.group) :
    utilityForGroupAction chats groupId actor
      = .fail NOT_FOUND "Group chat not found" := by
  unfold utilityForGroupAction
  rw [hfind]
  simp [htype]

/-- Claim C10: when the sole remaining participant of a group calls
`leaveGroup`, the handler answers OK "You left the group" but returns before
any save, so the chat store is unchanged and the record still lists the actor
as a participant. -/
theorem c10_leaveGroup_lastParticipant_noPersist
    (chats : List Chat) (actor groupId : Nat) (c : Chat)
    (hfind : findById chats groupId = some c)
    (htype : c.chatType = ChatType.group)
    (hps : c.participants = [actor]) :
    leaveGroup chats actor groupId = (.ok OK "You left the group" none, chats)
      ∧ findById chats groupId = some c ∧ actor ∈ c.participants := by
  refine ⟨?_, hfind, by simp [hps]⟩
  unfold leaveGroup
  rw [hfind]
  simp [htype, hps]

/-- Claim C10 witness: concrete single-member group. -/
theorem c10_witness :
    leaveGroup [{ id := 3, chatType := ChatType.group, participants := [4],
                  admins := [4], groupName := "solo", updatedAt := 0 }] 4 3
      = (.ok OK "You left the group" none,
         [{ id := 3, chatType := ChatType.group, participants := [4],
            admins := [4], groupName := "solo", updatedAt := 0 }])
      ∧ findById [{ id := 3, chatType := ChatType.group, participants := [4],
                    admins := [4], groupName := "solo", updatedAt := 0 }] 3
          = some { id := 3, chatType := ChatType.group, participants := [4],
                   admins := [4], groupName := "solo", updatedAt := 0 }
      ∧ 4 ∈ ({ id := 3, chatType := ChatType.group, participants := [4],
               admins := [4], groupName := "solo", updatedAt := 0 } : Chat).participants :=
  c10_leaveGroup_lastParticipant_noPersist _ 4 3 _ (by decide) (by decide) (by decide)

/-- Claim C3: when a participant who is an admin leaves a group, the
remaining participant list is non-empty, and dropping the actor empties the
admin list, the handler promotes the participant at index 0 of the remaining
list, so the saved admin set is the non-empty singleton of that participant. -/
theorem c3_leaveGroup_promotes
    (chats : List Chat) (actor groupId : Nat) (c : Chat)
    (hfind : findById chats groupId = some c)
    (htype : c.chatType = ChatType.group)
    (hmem : actor ∈ c.participants)
    (hrem : c.participants.erase actor ≠ [])
    (hadm : actor ∈ c.admins)
    (hempty : c.admins.erase actor = []) :
    leaveGroup chats actor groupId
      = (.ok OK "You left the group" none,
         saveChat { c with
           participants := c.participants.erase actor,
           admins := [(c.participants.erase actor).headD 0] } chats)
      ∧ ([(c.participants.erase actor).headD 0] : List Nat) ≠ [] := by
  refine ⟨?_, by simp⟩
  unfold leaveGroup
  rw [hfind]
  simp [htype, hmem, hadm, hempty, hrem]

/-- Claim C3 witness: the spec scenario — group "Team", participants
[1, 2, 3], admins [1]; user 1 leaves and 2 is promoted. -/
theorem c3_witness :
    leaveGroup [c3chat] 1 5
      = (.ok OK "You left the group" none,
         saveChat { c3chat with
           participants := c3chat.participants.erase 1,
           admins := [(c3chat.participants.erase 1).headD 0] } [c3chat])
      ∧ ([(c3chat.participants.erase 1).headD 0] : List Nat) ≠ [] :=
  c3_leaveGroup_promotes [c3chat] 1 5 c3chat (by decide) (by decide)
    (by decide) (by decide) (by decide) (by decide)

/-- Claim C4: `removeParticipant` by an admin of a group: a non-member
target yields an error without mutation; a self-target is rejected with the
dedicated message; otherwise the target is erased from the participants and
from the admins, with no replacement admin installed. -/
theorem c4_removeParticipant_spec
    (chats : List Chat) (actor groupId target : Nat) (c : Chat)
    (hfind : findById chats groupId = some c)
    (htype : c.chatType = ChatType.group)
    (hadm : actor ∈ c.admins) :
    (target ∉ c.participants →
       ∃ s m, removeParticipant chats actor groupId target = (.err s m, chats))
    ∧ (target = actor →
       removeParticipant chats actor groupId target
         = (.err BAD_REQUEST "You cant remove yourself, try leaving the group",
            chats))
    ∧ (target ≠ actor → target ∈ c.participants →
       removeParticipant chats actor groupId target
         = (.ok OK "User removed from group" none,
            saveChat { c with
              participants := c.participants.erase target,
              admins := c.admins.erase target } chats)) := by
  have hu := utility_pass hfind htype hadm
  refine ⟨?_, ?_, ?_⟩
  · intro hnp
    by_cases he : actor = target
    · refine ⟨BAD_REQUEST, "You cant remove yourself, try leaving the group", ?_⟩
      unfold removeParticipant
      rw [hu]
      simp [he]
    · refine ⟨BAD_REQUEST, "This user is not in the group", ?_⟩
      unfold removeParticipant
      rw [hu]
      simp [he, hnp]
  · intro he
    unfold removeParticipant
    rw [hu]
    simp [he]
  · intro hne hp
    unfold removeParticipant
    rw [hu]
    simp [Ne.symm hne, hp]

/-- Claim C4 witness: admin 1 removes member 2 (also an admin) from a
three-member group; 2 leaves both lists, nobody is promoted; removing the
absent user 9 and removing oneself fail without mutation. -/
theorem c4_witness :
    (9 ∉ c3chat.participants →
       ∃ s m, removeParticipant [c3chat] 1 5 9 = (.err s m, [c3chat]))
    ∧ (9 = 1 →
       removeParticipant [c3chat] 1 5 9
         = (.err BAD_REQUEST "You cant remove yourself, try leaving the group",
            [c3chat]))
    ∧ (9 ≠ 1 → 9 ∈ c3chat.participants →
       removeParticipant [c3chat] 1 5 9
         = (.ok OK "User removed from group" none,
            saveChat { c3chat with
              participants := c3chat.participants.erase 9,
              admins := c3chat.admins.erase 9 } [c3chat])) :=
  c4_removeParticipant_spec [c3chat] 1 5 9 c3chat (by decide) (by decide)
    (by decide)

theorem sortUserIds_comm (a b : Nat) : sortUserIds a b = sortUserIds b a := by
  unfold sortUserIds
  split_ifs with h1 h2 h2
  · exact (Nat.lt_asymm h1 h2).elim
  · rfl
  · rfl
  · have : a = b := by omega
    subst this
    rfl

/-- Claim C6 counterexample: a call with an empty group name and a missing
chat fails with BadRequest ("Group name is required"), not with NotFound —
the name guard runs before the chat lookup, so the claim's universal
"if the chat is missing ... the call fails with NotFound" is false. -/
theorem c6_counterexample :
    updateGroupName ([] : List Chat) 5 9 ""
      = (.err BAD_REQUEST "Group name is required", [])
    ∧ findById ([] : List Chat) 9 = none
    ∧ BAD_REQUEST ≠ NOT_FOUND :=
  ⟨by decide, rfl, by decide⟩

/-- Claim C6 (amended): for every `updateGroupName` call whose group name is
non-empty after trimming: a missing or non-group chat yields NotFound, and a
non-admin actor yields the authorization error (the spec's Forbidden class,
wire status 401); in both cases the store is unchanged. -/
theorem c6_updateGroupName_guards
    (chats : List Chat) (actor groupId : Nat) (name : String)
    (hname : isBlank name = false) :
    ((∀ c, findById chats groupId = some c → c.chatType ≠ ChatType.group) →
       updateGroupName chats actor groupId name
         = (.err NOT_FOUND "Group chat not found", chats))
    ∧ (∀ c, findById chats groupId = some c → c.chatType = ChatType.group →
         actor ∉ c.admins →
       updateGroupName chats actor groupId name
         = (.err UNAUTHORIZED "Only admins can change group name", chats)) := by
  constructor
  · intro hng
    cases hfind : findById chats groupId with
    | none => simp [updateGroupName, hname, hfind]
    | some c => simp [updateGroupName, hname, hfind, hng c hfind]
  · intro c hfind htype hadm
    simp [updateGroupName, hname, hfind, htype, hadm]

/-- Claim C6 witness: missing chat yields NotFound on a non-empty name, and
a non-admin actor yields the authorization error with the store unchanged. -/
theorem c6_witness :
    (updateGroupName ([] : List Chat) 5 9 "x"
       = (.err NOT_FOUND "Group chat not found", []))
    ∧ (updateGroupName [c6chat] 4 9 "x"
         = (.err UNAUTHORIZED "Only admins can change group name",
            [c6chat])) :=
  ⟨(c6_updateGroupName_guards [] 5 9 "x" (by decide)).1
     (fun c hc => by simp [findById] at hc),
   (c6_updateGroupName_guards [c6chat] 4 9 "x" (by decide)).2 c6chat
     (by decide) (by decide) (by decide)⟩

/-- Claim C5: when the target user exists, no one-to-one chat for the sorted
pair exists, and no accepted friendship for the pair exists, the call is
rejected (wire status 400, "You can only chat with friends" — the spec's
Forbidden class) and no chat record is created. -/
theorem c5_noFriendship_rejected
    (users : List Nat) (friendships : List Friendship) (chats : List Chat)
    (requester target newId s t : Nat)
    (huser : target ∈ users)
    (hsort : sortUserIds requester target = (s, t))
    (hnochat : findOneToOneByPair chats s t = [])
    (hnof : friendships.find? (fun f =>
        f.userOneId == s && f.userTwoId == t && f.status == "accepted")
          = none) :
    createOneToOneChat users friendships chats requester target newId
      = (.err BAD_REQUEST "You can only chat with friends", chats) := by
  simp only [createOneToOneChat, hsort]
  simp [huser, hnochat, hnof]

/-- Claim C5 witness: users 1 and 2 share only a pending friendship; user 2
attempts to open a one-to-one chat with 1 and is rejected with no creation. -/
theorem c5_witness :
    createOneToOneChat [1, 2]
        [{ userOneId := 1, userTwoId := 2, status := "pending" }] [] 2 1 6
      = (.err BAD_REQUEST "You can only chat with friends", []) :=
  c5_noFriendship_rejected [1, 2]
    [{ userOneId := 1, userTwoId := 2, status := "pending" }] [] 2 1 6 1 2
    (by decide) (by decide) (by decide) (by decide)

/-- Claim C2: with the target existing, no chat for the sorted pair yet, and
an accepted friendship present, the first call creates the chat keyed by the
sorted pair, and a repeat call — by either user, in either argument order —
returns that same record (matched by exact participants-array equality
against the sorted pair) and leaves the store unchanged. -/
theorem c2_createOneToOne_idempotent
    (users : List Nat) (friendships : List Friendship) (chats : List Chat)
    (a b s t id1 id2 : Nat) (fr : Friendship)
    (ha : a ∈ users) (hb : b ∈ users)
    (hsort : sortUserIds a b = (s, t))
    (hnochat : findOneToOneByPair chats s t = [])
    (hf : friendships.find? (fun f =>
        f.userOneId == s && f.userTwoId == t && f.status == "accepted")
          = some fr) :
    createOneToOneChat users friendships chats a b id1
      = (.ok CREATED "Chat created" (some (newOneToOneChat id1 s t)),
         chats ++ [newOneToOneChat id1 s t])
    ∧ createOneToOneChat users friendships
        (chats ++ [newOneToOneChat id1 s t]) a b id2
      = (.ok OK "Chat already exists" (some (newOneToOneChat id1 s t)),
         chats ++ [newOneToOneChat id1 s t])
    ∧ createOneToOneChat users friendships
        (chats ++ [newOneToOneChat id1 s t]) b a id2
      = (.ok OK "Chat already exists" (some (newOneToOneChat id1 s t)),
         chats ++ [newOneToOneChat id1 s t]) := by
  have hsort2 : sortUserIds b a = (s, t) := (sortUserIds_comm a b) ▸ hsort
  have hnew : findOneToOneByPair (chats ++ [newOneToOneChat id1 s t]) s t
      = [newOneToOneChat id1 s t] := by
    unfold findOneToOneByPair at hnochat ⊢
    rw [List.filter_append, hnochat]
    simp [newOneToOneChat]
  refine ⟨?_, ?_, ?_⟩
  · simp only [createOneToOneChat, hsort]
    simp [hb, hnochat, hf]
  · simp only [createOneToOneChat, hsort]
    simp [hb, hnew]
  · simp only [createOneToOneChat, hsort2]
    simp [ha, hnew]

/-- Claim C2 witness: accepted friends 1 and 2; 1 opens the chat, then the
repeat calls by 1 and by 2 both return the created record unchanged. -/
theorem c2_witness :
    createOneToOneChat [1, 2]
        [{ userOneId := 1, userTwoId := 2, status := "accepted" }] [] 1 2 6
      = (.ok CREATED "Chat created" (some (newOneToOneChat 6 1 2)),
         [] ++ [newOneToOneChat 6 1 2])
    ∧ createOneToOneChat [1, 2]
        [{ userOneId := 1, userTwoId := 2, status := "accepted" }]
        ([] ++ [newOneToOneChat 6 1 2]) 1 2 8
      = (.ok OK "Chat already exists" (some (newOneToOneChat 6 1 2)),
         [] ++ [newOneToOneChat 6 1 2])
    ∧ createOneToOneChat [1, 2]
        [{ userOneId := 1, userTwoId := 2, status := "accepted" }]
        ([] ++ [newOneToOneChat 6 1 2]) 2 1 8
      = (.ok OK "Chat already exists" (some (newOneToOneChat 6 1 2)),
         [] ++ [newOneToOneChat 6 1 2]) :=
  c2_createOneToOne_idempotent [1, 2]
    [{ userOneId := 1, userTwoId := 2, status := "accepted" }] [] 1 2 1 2 6 8
    { userOneId := 1, userTwoId := 2, status := "accepted" } (by decide)
    (by decide) (by decide) (by decide) (by decide)

theorem parsePage_of_lt {k : Int} (hk : k < 1) : parsePage (.num k) = 1 := by
  simp [parsePage, hk]

theorem parsePage_one : parsePage (.num 1) = 1 := rfl

/-- Claim C7: for both paginated queries, `hasMore` is true exactly when the
effective page times the fixed page size 50 is below the total count, and a
numeric page below 1 as well as a non-numeric page behave exactly as page 1. -/
theorem c7_pagination
    (chats : List Chat) (actor : Nat) (search : String) (pIn : PageInput)
    (k : Int) (hk : k < 1) :
    (∀ res, searchGroupChat chats actor search pIn = .ok res →
       (res.hasMore = true ↔ parsePage pIn * 50 < res.total))
    ∧ ((getAllChats chats actor pIn).hasMore = true
        ↔ parsePage pIn * 50 < (getAllChats chats actor pIn).total)
    ∧ searchGroupChat chats actor search (.num k)
        = searchGroupChat chats actor search (.num 1)
    ∧ searchGroupChat chats actor search .nonNumeric
        = searchGroupChat chats actor search (.num 1)
    ∧ getAllChats chats actor (.num k) = getAllChats chats actor (.num 1)
    ∧ getAllChats chats actor .nonNumeric
        = getAllChats chats actor (.num 1) := by
  refine ⟨?_, ?_, ?_, ?_, ?_, ?_⟩
  · intro res h
    unfold searchGroupChat at h
    split at h
    · exact absurd h (by simp)
    · have hres : searchGroupChatPaged chats actor search (parsePage pIn) = res := by
        injection h
      subst hres
      simp [searchGroupChatPaged]
  · simp [getAllChats, getAllChatsPaged]
  · simp only [searchGroupChat, parsePage_of_lt hk, parsePage_one]
  · simp only [searchGroupChat, parsePage_of_lt hk, parsePage_one]
    rfl
  · simp only [getAllChats, parsePage_of_lt hk, parsePage_one]
  · simp only [getAllChats, parsePage_of_lt hk, parsePage_one]
    rfl

/-- Claim C7 witness: instantiated at page 0 and a concrete store. -/
theorem c7_witness :
    (∀ res, searchGroupChat [c8chat] 7 "ab" (.num 2) = .ok res →
       (res.hasMore = true ↔ parsePage (.num 2) * 50 < res.total))
    ∧ ((getAllChats [c8chat] 7 (.num 2)).hasMore = true
        ↔ parsePage (.num 2) * 50 < (getAllChats [c8chat] 7 (.num 2)).total)
    ∧ searchGroupChat [c8chat] 7 "ab" (.num 0)
        = searchGroupChat [c8chat] 7 "ab" (.num 1)
    ∧ searchGroupChat [c8chat] 7 "ab" .nonNumeric
        = searchGroupChat [c8chat] 7 "ab" (.num 1)
    ∧ getAllChats [c8chat] 7 (.num 0) = getAllChats [c8chat] 7 (.num 1)
    ∧ getAllChats [c8chat] 7 .nonNumeric
        = getAllChats [c8chat] 7 (.num 1) :=
  c7_pagination [c8chat] 7 "ab" (.num 2) 0 (by decide)

theorem matchHere_eq_litHere {p : List Char} (hdot : '.' ∉ p) :
    ∀ s : List Char,
      matchHere p s = litHere (p.map Char.toLower) (s.map Char.toLower) := by
  induction p with
  | nil => intro s; cases s <;> rfl
  | cons c ps ih =>
    intro s
    have hc : c ≠ '.' := by
      intro h
      exact hdot (by simp [h])
    have hps : '.' ∉ ps := fun h => hdot (List.mem_cons_of_mem _ h)
    cases s with
    | nil => simp [matchHere, litHere]
    | cons x xs =>
      simp [matchHere, litHere, charMatches, ih hps, beq_eq_false_iff_ne.2 hc]

theorem regexSearch_eq_litSearch {p : List Char} (hdot : '.' ∉ p) :
    ∀ s : List Char,
      regexSearch p s = litSearch (p.map Char.toLower) (s.map Char.toLower) := by
  intro s
  induction s with
  | nil => simp [regexSearch, litSearch, matchHere_eq_litHere hdot]
  | cons x xs ih =>
    simp [regexSearch, litSearch, matchHere_eq_litHere hdot, ih]

theorem filter_congr_mem {α : Type} {p q : α → Bool} :
    ∀ l : List α, (∀ x ∈ l, p x = q x) → l.filter p = l.filter q := by
  intro l
  induction l with
  | nil => intro _; rfl
  | cons x xs ih =>
    intro h
    simp only [List.filter_cons, h x (List.mem_cons_self x xs),
      ih (fun y hy => h y (List.mem_cons_of_mem x hy))]

/-- Claim C8 counterexample: the query is passed to `$regex`, not matched
literally — the query "a.c" returns the group named "abc" (the `.` acts as a
wildcard) although "a.c" is not a case-insensitive substring of "abc", so
the claimed "exactly the ... substring" characterization is false. -/
theorem c8_counterexample :
    searchGroupChat [c8chat] 7 "a.c" (.num 1)
      = .ok { data := [c8chat], total := 1, hasMore := false }
    ∧ ciContains "a.c" "abc" = false := by
  constructor
  · rfl
  · rfl

/-- Claim C8 (amended): the filter is a case-insensitive regex match of the
query over `groupName`; for queries free of all PCRE regex metacharacters —
where the `$regex` semantics is literal unanchored substring search, the
domain on which `regexSearch` is a faithful embedding — it coincides
exactly with the claimed case-insensitive substring filter over the group
chats the actor belongs to. -/
theorem c8_regex_refinement
    (chats : List Chat) (actor : Nat) (search : String) (pIn : PageInput)
    (hmeta : ∀ ch ∈ search.data, ch ∉ pcreMetachars) :
    searchGroupChat chats actor search pIn
      = specSearchGroups chats actor search pIn := by
  have hdot : '.' ∉ search.data := fun h =>
    absurd (by decide : '.' ∈ pcreMetachars) (hmeta '.' h)
  unfold searchGroupChat specSearchGroups
  split
  · rfl
  · have hfe : chats.filter (fun c =>
        decide (c.chatType = ChatType.group) && c.participants.contains actor
          && regexSearch search.data c.groupName.data)
        = chats.filter (fun c =>
        decide (c.chatType = ChatType.group) && c.participants.contains actor
          && ciContains search c.groupName) :=
      filter_congr_mem chats (fun c _ => by
        rw [regexSearch_eq_litSearch hdot]
        rfl)
    simp only [searchGroupChatPaged, specSearchGroupsPaged, hfe]

/-- Claim C8 witness: for the query "ab", free of every PCRE metacharacter,
the regex filter and the case-insensitive substring filter agree on a
concrete store. -/
theorem c8_witness :
    searchGroupChat [c8chat] 7 "ab" (.num 1)
      = specSearchGroups [c8chat] 7 "ab" (.num 1) :=
  c8_regex_refinement [c8chat] 7 "ab" (.num 1) (by decide)

theorem addStep_preserves {c c' : Chat} (h : addStep c c')
    (h0 : c.admins ≠ []) : c'.admins ≠ [] := by
  obtain ⟨fs, actor, target, hok, hst⟩ := h
  by_cases ht : c.chatType = ChatType.group
  case neg =>
    exfalso
    have heq : addParticipant fs [c] actor c.id target
        = (.err NOT_FOUND "Group chat not found", [c]) := by
      unfold addParticipant
      rw [utility_fail_type (findById_singleton c) ht]
    rw [heq] at hok
    simp [Resp.isOk] at hok
  case pos =>
  by_cases ha : actor ∈ c.admins
  case neg =>
    exfalso
    have heq : addParticipant fs [c] actor c.id target
        = (.err UNAUTHORIZED "Only admins can perform this action", [c]) := by
      unfold addParticipant
      rw [utility_fail_admin (findById_singleton c) ht ha]
    rw [heq] at hok
    simp [Resp.isOk] at hok
  case pos =>
  by_cases hp : target ∈ c.participants
  case pos =>
    exfalso
    have heq : addParticipant fs [c] actor c.id target
        = (.err BAD_REQUEST "This user is already in the group", [c]) := by
      unfold addParticipant
      rw [utility_pass (findById_singleton c) ht ha]
      dsimp only
      simp [hp]
    rw [heq] at hok
    simp [Resp.isOk] at hok
  case neg =>
  cases hff : fs.find? (fun f =>
      f.userOneId == (sortUserIds actor target).1
        && f.userTwoId == (sortUserIds actor target).2
        && f.status == "accepted") with
  | none =>
    exfalso
    have heq : addParticipant fs [c] actor c.id target
        = (.err BAD_REQUEST "You can only add your friends to the group", [c]) := by
      unfold addParticipant
      rw [utility_pass (findById_singleton c) ht ha]
      dsimp only
      rw [hff]
      simp [hp]
    rw [heq] at hok
    simp [Resp.isOk] at hok
  | some fr =>
    have heq : addParticipant fs [c] actor c.id target
        = (.ok OK "User added to group" none,
           saveChat { c with
             participants := c.participants ++ [target] } [c]) := by
      unfold addParticipant
      rw [utility_pass (findById_singleton c) ht ha]
      dsimp only
      rw [hff]
      simp [hp]
    rw [heq] at hst
    simp [saveChat] at hst
    subst hst
    simpa using h0

theorem removeStep_preserves {c c' : Chat} (h : removeStep c c')
    (_h0 : c.admins ≠ []) : c'.admins ≠ [] := by
  obtain ⟨actor, target, hok, hst⟩ := h
  by_cases ht : c.chatType = ChatType.group
  case neg =>
    exfalso
    have heq : removeParticipant [c] actor c.id target
        = (.err NOT_FOUND "Group chat not found", [c]) := by
      unfold removeParticipant
      rw [utility_fail_type (findById_singleton c) ht]
    rw [heq] at hok
    simp [Resp.isOk] at hok
  case pos =>
  by_cases ha : actor ∈ c.admins
  case neg =>
    exfalso
    have heq : removeParticipant [c] actor c.id target
        = (.err UNAUTHORIZED "Only admins can perform this action", [c]) := by
      unfold removeParticipant
      rw [utility_fail_admin (findById_singleton c) ht ha]
    rw [heq] at hok
    simp [Resp.isOk] at hok
  case pos =>
  by_cases he : actor = target
  case pos =>
    exfalso
    have heq : removeParticipant [c] actor c.id target
        = (.err BAD_REQUEST "You cant remove yourself, try leaving the group",
           [c]) := by
      unfold removeParticipant
      rw [utility_pass (findById_singleton c) ht ha]
      dsimp only
      simp [he]
    rw [heq] at hok
    simp [Resp.isOk] at hok
  case neg =>
  by_cases hp : target ∈ c.participants
  case neg =>
    exfalso
    have heq : removeParticipant [c] actor c.id target
        = (.err BAD_REQUEST "This user is not in the group", [c]) := by
      unfold removeParticipant
      rw [utility_pass (findById_singleton c) ht ha]
      dsimp only
      simp [he, hp]
    rw [heq] at hok
    simp [Resp.isOk] at hok
  case pos =>
    have heq : removeParticipant [c] actor c.id target
        = (.ok OK "User removed from group" none,
           saveChat { c with
             participants := c.participants.erase target,
             admins := c.admins.erase target } [c]) := by
      unfold removeParticipant
      rw [utility_pass (findById_singleton c) ht ha]
      dsimp only
      simp [he, hp]
    rw [heq] at hst
    simp [saveChat] at hst
    subst hst
    exact List.ne_nil_of_mem ((List.mem_erase_of_ne he).2 ha)

theorem toggleStepSafe_preserves {c c' : Chat} (h : toggleStepSafe c c')
    (_h0 : c.admins ≠ []) : c'.admins ≠ [] := by
  obtain ⟨actor, target, hok, hst, hsafe⟩ := h
  by_cases ht : c.chatType = ChatType.group
  case neg =>
    exfalso
    have heq : toggleAdmin [c] actor c.id target
        = (.err NOT_FOUND "Group chat not found", [c]) := by
      unfold toggleAdmin
      rw [utility_fail_type (findById_singleton c) ht]
    rw [heq] at hok
    simp [Resp.isOk] at hok
  case pos =>
  by_cases ha : actor ∈ c.admins
  case neg =>
    exfalso
    have heq : toggleAdmin [c] actor c.id target
        = (.err UNAUTHORIZED "Only admins can perform this action", [c]) := by
      unfold toggleAdmin
      rw [utility_fail_admin (findById_singleton c) ht ha]
    rw [heq] at hok
    simp [Resp.isOk] at hok
  case pos =>
  by_cases hp : target ∈ c.participants
  case neg =>
    exfalso
    have heq : toggleAdmin [c] actor c.id target
        = (.err BAD_REQUEST "This user is not in the group", [c]) := by
      unfold toggleAdmin
      rw [utility_pass (findById_singleton c) ht ha]
      dsimp only
      simp [hp]
    rw [heq] at hok
    simp [Resp.isOk] at hok
  case pos =>
  by_cases hta : target ∈ c.admins
  case pos =>
    have heq : toggleAdmin [c] actor c.id target
        = (.ok OK "Admin removed" none,
           saveChat { c with admins := c.admins.erase target } [c]) := by
      unfold toggleAdmin
      rw [utility_pass (findById_singleton c) ht ha]
      dsimp only
      simp [hp, hta]
    rw [heq] at hst
    simp [saveChat] at hst
    subst hst
    exact fun hh => hsafe ⟨hta, by simpa using hh⟩
  case neg =>
    have heq : toggleAdmin [c] actor c.id target
        = (.ok OK "User marked as admin" none,
           saveChat { c with admins := c.admins ++ [target] } [c]) := by
      unfold toggleAdmin
      rw [utility_pass (findById_singleton c) ht ha]
      dsimp only
      simp [hp, hta]
    rw [heq] at hst
    simp [saveChat] at hst
    subst hst
    simp

theorem leaveStep_preserves {c c' : Chat} (h : leaveStep c c')
    (h0 : c.admins ≠ []) : c'.admins ≠ [] := by
  obtain ⟨actor, hok, hst⟩ := h
  by_cases ht : c.chatType = ChatType.group
  case neg =>
    exfalso
    have heq : leaveGroup [c] actor c.id
        = (.err NOT_FOUND "Group chat not found", [c]) := by
      unfold leaveGroup
      rw [findById_singleton]
      simp [ht]
    rw [heq] at hok
    simp [Resp.isOk] at hok
  case pos =>
  by_cases hmem : actor ∈ c.participants
  case neg =>
    exfalso
    have heq : leaveGroup [c] actor c.id
        = (.err BAD_REQUEST "You are not in the group", [c]) := by
      unfold leaveGroup
      rw [findById_singleton]
      simp [ht, hmem]
    rw [heq] at hok
    simp [Resp.isOk] at hok
  case pos =>
  by_cases hemp : c.participants.erase actor = []
  case pos =>
    have heq : leaveGroup [c] actor c.id
        = (.ok OK "You left the group" none, [c]) := by
      unfold leaveGroup
      rw [findById_singleton]
      simp [ht, hmem, hemp]
    rw [heq] at hst
    simp at hst
    subst hst
    exact h0
  case neg =>
  by_cases hwa : actor ∈ c.admins
  case pos =>
    by_cases hae : c.admins.erase actor = []
    case pos =>
      have heq : leaveGroup [c] actor c.id
          = (.ok OK "You left the group" none,
             saveChat { c with
               participants := c.participants.erase actor,
               admins := [(c.participants.erase actor).headD 0] } [c]) := by
        unfold leaveGroup
        rw [findById_singleton]
        simp [ht, hmem, hemp, hwa, hae]
      rw [heq] at hst
      simp [saveChat] at hst
      subst hst
      simp
    case neg =>
      have heq : leaveGroup [c] actor c.id
          = (.ok OK "You left the group" none,
             saveChat { c with
               participants := c.participants.erase actor,
               admins := c.admins.erase actor } [c]) := by
        unfold leaveGroup
        rw [findById_singleton]
        simp [ht, hmem, hemp, hwa, hae]
      rw [heq] at hst
      simp [saveChat] at hst
      subst hst
      simpa using hae
  case neg =>
    have heq : leaveGroup [c] actor c.id
        = (.ok OK "You left the group" none,
           saveChat { c with
             participants := c.participants.erase actor,
             admins := c.admins } [c]) := by
      unfold leaveGroup
      rw [findById_singleton]
      simp [ht, hmem, hemp, hwa]
    rw [heq] at hst
    simp [saveChat] at hst
    subst hst
    simpa using h0

/-- Claim C1 counterexample: starting from a well-formed two-member group
whose sole admin is user 1 (admins non-empty and contained in the
participants), a single precondition-respecting `toggleAdmin` call — the
admin toggling themself — leaves the participant set non-empty and the
admin set empty, refuting the claimed invariant for the full operation set. -/
theorem c1_counterexample :
    chatStepFull c1chat0 c1chat1
    ∧ c1chat0.admins ≠ []
    ∧ (∀ a ∈ c1chat0.admins, a ∈ c1chat0.participants)
    ∧ c1chat1.participants ≠ []
    ∧ c1chat1.admins = [] :=
  ⟨Or.inr (Or.inr (Or.inl ⟨1, 1, by decide, by decide⟩)),
   by decide, by decide, by decide, by decide⟩

/-- Claim C1 (amended): for every group chat with a non-empty admin set and
every finite sequence of addParticipant, removeParticipant, leaveGroup, and
toggleAdmin operations in which no toggleAdmin call demotes the last
remaining admin (each applied only when its own preconditions hold, i.e.
each call succeeds) that leaves the participant set non-empty, the resulting
admin set is non-empty. -/
theorem c1_admin_invariant
    (c c' : Chat) (h0 : c.admins ≠ [])
    (hsteps : Relation.ReflTransGen chatStepSafe c c')
    (_hne : c'.participants ≠ []) : c'.admins ≠ [] := by
  clear _hne
  induction hsteps with
  | refl => exact h0
  | tail hs hstep ih =>
    rcases hstep with h | h | h | h
    · exact addStep_preserves h ih
    · exact removeStep_preserves h ih
    · exact toggleStepSafe_preserves h ih
    · exact leaveStep_preserves h ih

/-- Claim C1 witness: the sole admin of a two-member group leaves; the chain
of one `leaveGroup` step ends with the promoted member as admin. -/
theorem c1_witness :
    ({ id := 1, chatType := ChatType.group, participants := [2], admins := [2],
       groupName := "g", updatedAt := 0 } : Chat).admins ≠ [] :=
  c1_admin_invariant c1chat0
    { id := 1, chatType := ChatType.group, participants := [2], admins := [2],
      groupName := "g", updatedAt := 0 }
    (by decide)
    (Relation.ReflTransGen.single
      (Or.inr (Or.inr (Or.inr ⟨1, by decide, by decide⟩))))
    (by decide)

theorem count_covers_map {α β : Type} [DecidableEq β]
    (g : α → β) (q : α → Bool) {fl : List α} {sel : List β}
    (hnd : (fl.map g).Nodup)
    (himp : ∀ f, q f = true → g f ∈ sel)
    (h : (fl.filter q).length = sel.length) :
    ∀ pr ∈ sel, ∃ f ∈ fl, g f = pr ∧ q f = true := by
  intro pr hpr
  have hsubl : List.Sublist ((fl.filter q).map g) (fl.map g) :=
    (List.filter_sublist fl).map g
  have hnd2 : ((fl.filter q).map g).Nodup := hnd.sublist hsubl
  have hsub : (fl.filter q).map g ⊆ sel := by
    intro x hx
    obtain ⟨f, hf, hfe⟩ := List.mem_map.1 hx
    rw [← hfe]
    exact himp f (List.mem_filter.1 hf).2
  have hlen : ((fl.filter q).map g).length = sel.length := by
    rw [List.length_map]
    exact h
  have hperm : ((fl.filter q).map g).Perm sel :=
    (hnd2.subperm hsub).perm_of_length_le (by omega)
  obtain ⟨f, hf, hfe⟩ := List.mem_map.1 (hperm.mem_iff.2 hpr)
  exact ⟨f, (List.mem_filter.1 hf).1, hfe, (List.mem_filter.1 hf).2⟩

/-- Claim C9: a successful `createGroupChat` call (over stores whose user
ids and friendship pairs are duplicate-free) implies that every named
participant exists, that every named participant has an accepted friendship
with the requester (nothing is required between the named participants
themselves), and that the created chat's participants are the named list
plus the requester with the requester as sole admin. -/
theorem c9_createGroup_conditions
    (users : List Nat) (friendships : List Friendship) (chats : List Chat)
    (me : Nat) (ps : List Nat) (name : String) (newId : Nat)
    (g : Chat) (chats' : List Chat)
    (husers : users.Nodup)
    (hpairs : (friendships.map (fun f => (f.userOneId, f.userTwoId))).Nodup)
    (h : createGroupChat users friendships chats me ps name newId
          = (.ok CREATED "Group chat created" (some g), chats')) :
    (∀ p ∈ ps, p ∈ users)
    ∧ (∀ p ∈ ps, ∃ f ∈ friendships,
        (f.userOneId, f.userTwoId) = canonicalPair p me
          ∧ f.status = "accepted")
    ∧ g.participants = ps ++ [me]
    ∧ g.admins = [me]
    ∧ chats' = chats ++ [g] := by
  simp only [createGroupChat] at h
  split_ifs at h with h1 h2 h3 h4
  · exact Resp.noConfusion (congrArg Prod.fst h)
  · exact Resp.noConfusion (congrArg Prod.fst h)
  · exact Resp.noConfusion (congrArg Prod.fst h)
  · exact Resp.noConfusion (congrArg Prod.fst h)
  · simp only [Prod.mk.injEq, Resp.ok.injEq, Option.some.injEq] at h
    obtain ⟨⟨-, -, hg⟩, hc⟩ := h
    subst hg
    refine ⟨?_, ?_, rfl, rfl, hc.symm⟩
    · have hcov := count_covers_map (fun u => u) (fun u => ps.contains u)
        (by simpa using husers)
        (fun f hf => contains_eq_true_iff.1 hf)
        (not_ne_iff.1 h3)
      intro p hp
      obtain ⟨f, hfu, hfe, -⟩ := hcov p hp
      exact hfe ▸ hfu
    · have hlen : (friendships.filter (fun f =>
            (ps.map (fun p => canonicalPair p me)).contains
                (f.userOneId, f.userTwoId)
              && f.status == "accepted")).length
          = (ps.map (fun p => canonicalPair p me)).length := by
        rw [List.length_map]
        exact not_ne_iff.1 h4
      have hcov := count_covers_map
        (fun f : Friendship => (f.userOneId, f.userTwoId))
        (fun f : Friendship =>
          (ps.map (fun p => canonicalPair p me)).contains
            (f.userOneId, f.userTwoId) && f.status == "accepted")
        hpairs
        (fun f hf => by
          simp only [Bool.and_eq_true] at hf
          exact contains_eq_true_iff.1 hf.1)
        hlen
      intro p hp
      obtain ⟨f, hfl, hfe, hq⟩ := hcov (canonicalPair p me)
        (List.mem_map_of_mem _ hp)
      simp only [Bool.and_eq_true] at hq
      exact ⟨f, hfl, hfe, by simpa using hq.2⟩

/-- Claim C9 witness: requester 10 creates "Team" with named participants 1
and 2; both are friends with 10, while 1 and 2 have no friendship with each
other, and the call succeeds with admins = [10]. -/
theorem c9_witness :
    (∀ p ∈ ([1, 2] : List Nat), p ∈ ([1, 2, 10] : List Nat))
    ∧ (∀ p ∈ ([1, 2] : List Nat), ∃ f ∈ c9friends,
        (f.userOneId, f.userTwoId) = canonicalPair p 10
          ∧ f.status = "accepted")
    ∧ c9group.participants = [1, 2] ++ [10]
    ∧ c9group.admins = [10]
    ∧ [c9group] = ([] : List Chat) ++ [c9group] :=
  c9_createGroup_conditions [1, 2, 10] c9friends [] 10 [1, 2] "Team" 7
    c9group [c9group] (by decide) (by decide) (by decide)
